import Mathlib

/-!
Shallow embedding of `src/api_server.py` (Resemble-Enhance-API-Container).

The program is a Flask app with three handlers:
* `health_check` (GET /health), `root` (GET /) — pure JSON responders that
  report a process-wide `device` string computed once at startup;
* `denoise_audio` (POST /denoise) — validates an uploaded file, writes it to a
  temporary file, decodes it (`torchaudio.load`), passes the first channel to
  the external `denoise` function, encodes the result to a second temporary
  file (`torchaudio.save`), streams it back, and cleans the temporary files up
  in a `finally` block whose two `os.unlink` calls sit inside a single
  `try/except OSError: pass` guard.

External effects (the upload write, `torchaudio.load`, the external `denoise`
call, `torchaudio.save`, and a possible external removal of the input
temporary file that would make `os.unlink` raise `OSError`) are supplied by an
environment record `Env`, so the handler becomes a pure function from the
request and the environment to a response plus a record `St` of the
filesystem facts the claims talk about (which temporary files were created,
which remain on disk, what the external denoise function was called with,
what `torchaudio.save` was called with).
-/

/-- One audio channel, a row of the decoded tensor (samples as integers). -/
abbrev Chan := List Int

/-- `werkzeug` file object as the handler sees it: only the claimed filename
matters to this code. -/
structure FileStorage where
  filename : String
deriving DecidableEq

/-- The part of the Flask request the handler reads: the optional `file` field
of `request.files`. -/
structure Request where
  file : Option FileStorage
deriving DecidableEq

/-- JSON values, enough for the bodies this app builds. -/
inductive Json where
  | str (s : String)
  | obj (fields : List (String × Json))

/-- A response body: either JSON (`jsonify`) or a file attachment
(`send_file` with `as_attachment=True`). -/
inductive RespBody where
  | json (j : Json)
  | fileAttachment (downloadName : String) (mimetype : String)

/-- An HTTP response: status code plus body. -/
structure Response where
  status : Nat
  body : RespBody

/-- `jsonify({"error": msg}), code` as the handler writes it. -/
def errResp (code : Nat) (msg : String) : Response :=
  ⟨code, .json (.obj [("error", .str msg)])⟩

/-- Field lookup in a JSON object. -/
def jsonField (j : Json) (k : String) : Option Json :=
  match j with
  | .obj fields => fields.lookup k
  | .str _ => none

/-- The string under the `error` key of a JSON response body, when present. -/
def errMsg (r : Response) : Option String :=
  match r.body with
  | .json j =>
    match jsonField j "error" with
    | some (.str s) => some s
    | _ => none
  | .fileAttachment _ _ => none

/-- Whether the body is a file attachment. -/
def isAttachment (r : Response) : Bool :=
  match r.body with
  | .fileAttachment _ _ => true
  | .json _ => false

/-- Line 15-18: `device = "cuda" if torch.cuda.is_available() else "cpu"`,
computed once at startup from the hardware probe and never reassigned. -/
def device (cudaAvailable : Bool) : String :=
  if cudaAvailable then "cuda" else "cpu"

/-- Line 36-39: the `/health` handler returns a fixed JSON payload built from
the startup-time `device` value. -/
def health_check (cudaAvailable : Bool) : Response :=
  ⟨200, .json (.obj [("status", .str "healthy"),
                     ("device", .str (device cudaAvailable))])⟩

/-- Line 100-111: the `/` handler returns static API metadata plus the
startup-time `device` value. -/
def root (cudaAvailable : Bool) : Response :=
  ⟨200, .json (.obj
    [("message", .str "Audio Denoiser API"),
     ("endpoints", .obj
       [("/health", .str "GET - Health check"),
        ("/denoise", .str "POST - Upload WAV file to denoise"),
        ("/", .str "GET - This information")]),
     ("device", .str (device cudaAvailable))])⟩

/-- Environment of one `/denoise` call: the outcomes of every external
operation the handler performs, plus the startup hardware probe.
`inputVanishes` models the situation the code's own comment mentions
(the file might already be deleted): the input temporary file disappears
from disk before the cleanup block runs, so `os.unlink` on it raises
`OSError`. -/
structure Env where
  cudaAvailable : Bool
  /-- `file.save(temp_input.name)` raises with this message, when `some`. -/
  saveExc : Option String
  /-- `torchaudio.load(path)`: either raises, or yields (channels, sample rate). -/
  loadResult : Except String (List Chan × Nat)
  /-- The external `denoise(signal, sr, device)`: either raises, or yields
  (possibly-null denoised signal, new sample rate). -/
  denoiseFn : Chan → Nat → String → Except String (Option Chan × Nat)
  /-- `torchaudio.save(...)` raises with this message, when `some`. -/
  encodeExc : Option String
  /-- The input temporary file is removed externally before cleanup runs. -/
  inputVanishes : Bool

/-- Filesystem and call record of one `/denoise` invocation. `outputPathRecorded`
is the Python-level fact `'temp_output_path' in locals()`: the assignment
`temp_output_path = temp_output.name` sits after `torchaudio.save`, so it is
reached only when encoding did not raise. -/
structure St where
  inputCreated : Bool
  inputOnDisk : Bool
  outputCreated : Bool
  outputOnDisk : Bool
  outputPathRecorded : Bool
  denoiseCalledWith : Option (Chan × Nat × String)
  encodeCalledWith : Option (Chan × Option Nat)

/-- The state at the start of a call: nothing created, no external call made. -/
def St.init : St :=
  ⟨false, false, false, false, false, none, none⟩

/-- Line 22-34, `_fn(path)`: guard for a null path, decode with
`torchaudio.load`, take the first channel `dwav[0]` (an IndexError when there
are no channels), call the external `denoise`. Returns the Python pair
`(wav1, new_sr)` or the raised exception, together with the record of the
arguments `denoise` was invoked with (`none` when it was never reached). -/
def _fn (env : Env) (path : Option String) :
    Except String (Option Chan × Option Nat) × Option (Chan × Nat × String) :=
  match path with
  | none => (.ok (none, none), none)
  | some _ =>
    match env.loadResult with
    | .error e => (.error e, none)
    | .ok (dwav, sr) =>
      match dwav with
      | [] => (.error "IndexError: index 0 is out of bounds", none)
      | ch :: _ =>
        match env.denoiseFn ch sr (device env.cudaAvailable) with
        | .error e => (.error e, some (ch, sr, device env.cudaAvailable))
        | .ok (wav1, newSr) => (.ok (wav1, some newSr), some (ch, sr, device env.cudaAvailable))

/-- Line 56: `file.filename.lower().endswith(('.wav', '.wave'))`, written on
the character list so that it evaluates by reduction. -/
def wavExt (filename : String) : Bool :=
  let lower := filename.data.map Char.toLower
  ".wav".data.isSuffixOf lower || ".wave".data.isSuffixOf lower

/-- A character kept by the sanitizer regex `[A-Za-z0-9_.-]`. -/
def _ascii_keep (c : Char) : Bool :=
  c.isAlpha || c.isDigit || c = '_' || c = '.' || c = '-'

/-- Split a character list on whitespace runs, Python `str.split()` (empty
groups are produced here and filtered by the caller). -/
def splitWS : List Char → List (List Char)
  | [] => [[]]
  | c :: cs =>
    if c.isWhitespace then [] :: splitWS cs
    else
      match splitWS cs with
      | [] => [[c]]
      | g :: gs => (c :: g) :: gs

/-- Drop the leading characters in the Python strip set `"._"`. -/
def stripDots (l : List Char) : List Char :=
  l.dropWhile (fun c => c = '.' || c = '_')

/-- Modelled from the external `werkzeug.utils.secure_filename` (the library is
not part of this repository): drop non-ASCII characters (approximating the
NFKD-normalize-then-ASCII-encode step), replace the path separator with a
space, join the whitespace-split pieces with underscores, delete every
character outside `[A-Za-z0-9_.-]`, and strip leading and trailing `.`/`_`. -/
def secure_filename (filename : String) : String :=
  let ascii := filename.data.filter (fun c => c.toNat < 128)
  let noSep := ascii.map (fun c => if c = '/' then ' ' else c)
  let joined := List.intercalate ['_'] ((splitWS noSep).filter (· ≠ []))
  let kept := joined.filter _ascii_keep
  String.mk ((stripDots ((stripDots kept).reverse)).reverse)

/-- Lines 64-83, the inner `try` body: run `_fn` on the saved input file, turn
a null result into a 500, otherwise create the output temporary file, encode
into it with `torchaudio.save` (the path variable is recorded only afterwards,
line 75), and build the `send_file` attachment response. `Except.error`
results are exceptions that escape toward the outer handler. -/
def innerBody (file : FileStorage) (env : Env) (st : St) :
    Except String Response × St :=
  match _fn env (some "temp_input_path") with
  | (.error e, call) => (.error e, { st with denoiseCalledWith := call })
  | (.ok (none, _), call) =>
    (.ok (errResp 500 "Failed to process the audio file"),
     { st with denoiseCalledWith := call })
  | (.ok (some wav, sampleRate), call) =>
    let st := { st with denoiseCalledWith := call,
                        outputCreated := true, outputOnDisk := true,
                        encodeCalledWith := some (wav, sampleRate) }
    match env.encodeExc with
    | some e => (.error e, st)
    | none =>
      let st := { st with outputPathRecorded := true }
      (.ok ⟨200, .fileAttachment ("denoised_" ++ secure_filename file.filename)
                 "audio/wav"⟩, st)

/-- Lines 85-92, the `finally` block: both `os.unlink` calls run inside one
`try/except OSError: pass`. `os.unlink` raises `OSError` exactly when the file
is no longer on disk; when the input unlink raises, the guard aborts and the
output unlink (guarded by `'temp_output_path' in locals()`) never runs. -/
def cleanup (env : Env) (st : St) : St :=
  let st := if env.inputVanishes then { st with inputOnDisk := false } else st
  if st.inputOnDisk then
    let st := { st with inputOnDisk := false }
    if st.outputPathRecorded then { st with outputOnDisk := false } else st
  else
    st

/-- The state right after line 60-62: the input temporary file has been
created by `NamedTemporaryFile(delete=False)` and the upload written to it. -/
def stIn : St :=
  { St.init with inputCreated := true, inputOnDisk := true }

/-- Lines 44-92 without the outer `except Exception`: validations, creation of
the input temporary file and the upload write (lines 60-62, outside the inner
`try`, so an exception there skips cleanup), then the inner `try ... finally`.
An `Except.error` result is an exception reaching the outer handler. -/
def denoise_audio_exc (req : Request) (env : Env) :
    Except String Response × St :=
  match req.file with
  | none => (.ok (errResp 400 "No file provided"), St.init)
  | some file =>
    if file.filename = "" then
      (.ok (errResp 400 "No file selected"), St.init)
    else if wavExt file.filename then
      match env.saveExc with
      | some e => (.error e, stIn)
      | none =>
        match innerBody file env stIn with
        | (r, st2) => (r, cleanup env st2)
    else
      (.ok (errResp 400 "Only WAV files are supported"), St.init)

/-- Lines 44-98, the whole `/denoise` handler: the inner pipeline wrapped in
the top-level `except Exception as e` that converts any escaped exception into
a 500 JSON response carrying the exception text. -/
def denoise_audio (req : Request) (env : Env) : Response × St :=
  match denoise_audio_exc req env with
  | (.ok r, st) => (r, st)
  | (.error e, st) => (errResp 500 ("Internal server error: " ++ e), st)

/-- The `device` value carried in a JSON response, when present. -/
def deviceField (r : Response) : Option String :=
  match r.body with
  | .json j =>
    match jsonField j "device" with
    | some (.str s) => some s
    | _ => none
  | .fileAttachment _ _ => none

/-- A denoise stub that returns the input signal and sample rate unchanged
(the identity stub of the spec scenario). -/
def idDenoise : Chan → Nat → String → Except String (Option Chan × Nat) :=
  fun ch sr _ => .ok (some ch, sr)

/-- A fully successful environment: no accelerator, no exceptions, a 16 kHz
two-sample mono decode, the identity denoise stub, no external interference. -/
def envOK : Env :=
  ⟨false, none, .ok ([[1, 2]], 16000), idDenoise, none, false⟩

/-- A request carrying an upload named `sample.wav`. -/
def wavReq : Request := ⟨some ⟨"sample.wav"⟩⟩

/-- Like `envOK` but `torchaudio.save` raises. -/
def envEncBoom : Env := { envOK with encodeExc := some "disk full" }

/-- Like `envOK` but the external denoise function returns a null signal. -/
def envNull : Env := { envOK with denoiseFn := fun _ _ _ => .ok (none, 0) }

/-- Like `envOK` but the input temporary file vanishes before cleanup, so
`os.unlink` on it raises `OSError`. -/
def envVanish : Env := { envOK with inputVanishes := true }

/-- Like `envOK` but `file.save` raises. -/
def envSaveBoom : Env := { envOK with saveExc := some "boom" }

/-- Like `envOK` but `torchaudio.load` raises. -/
def envLoadBoom : Env := { envOK with loadResult := .error "bad wav" }

/-! ## General lemmas about the embedding -/

/-- Every character surviving `secure_filename` is in `[A-Za-z0-9_.-]`. -/
theorem secure_filename_safe (s : String) :
    ∀ c ∈ (secure_filename s).data, _ascii_keep c = true := by
  intro c hc
  simp only [secure_filename, stripDots, String.data] at hc
  have h1 := (List.dropWhile_sublist _).mem (List.mem_reverse.mp hc)
  have h2 := (List.dropWhile_sublist _).mem (List.mem_reverse.mp h1)
  exact (List.mem_filter.mp h2).2

/-- The inner try body never touches the input temporary file. -/
theorem innerBody_inputOnDisk (f : FileStorage) (env : Env) (st : St) :
    (innerBody f env st).2.inputOnDisk = st.inputOnDisk := by
  unfold innerBody
  rcases h : _fn env (some "temp_input_path") with ⟨res, call⟩
  rcases res with e | ⟨w, sr⟩
  · rfl
  · rcases w with _ | w
    · rfl
    · rcases he : env.encodeExc with _ | e <;> simp [he]

/-- When encoding does not raise, the inner try body leaves the output file on
disk exactly when its path variable got recorded. -/
theorem innerBody_output (f : FileStorage) (env : Env) (st : St)
    (he : env.encodeExc = none) (hst : st.outputOnDisk = st.outputPathRecorded) :
    (innerBody f env st).2.outputOnDisk = (innerBody f env st).2.outputPathRecorded := by
  unfold innerBody
  rcases h : _fn env (some "temp_input_path") with ⟨res, call⟩
  rcases res with e | ⟨w, sr⟩
  · simpa using hst
  · rcases w with _ | w
    · simpa using hst
    · rw [he]

/-- The cleanup block deletes both files when the input file is still there
and the output file is on disk only if its path was recorded. -/
theorem cleanup_clean (env : Env) (st : St) (hv : env.inputVanishes = false)
    (hin : st.inputOnDisk = true) (hout : st.outputOnDisk = st.outputPathRecorded) :
    (cleanup env st).inputOnDisk = false ∧ (cleanup env st).outputOnDisk = false := by
  unfold cleanup
  rw [hv]
  by_cases hr : st.outputPathRecorded = true <;> simp [hin, hr, hout]

/-- The response of `/denoise` does not depend on whether the input temporary
file vanished before cleanup: deletion errors never reach the caller. -/
theorem resp_indep (req : Request) (c : Bool) (sv : Option String)
    (lr : Except String (List Chan × Nat))
    (dn : Chan → Nat → String → Except String (Option Chan × Nat))
    (en : Option String) (v1 v2 : Bool) :
    (denoise_audio req ⟨c, sv, lr, dn, en, v1⟩).1
      = (denoise_audio req ⟨c, sv, lr, dn, en, v2⟩).1 := by
  rcases req with ⟨_ | f⟩
  · rfl
  · by_cases hf : f.filename = ""
    · simp [denoise_audio, denoise_audio_exc, hf]
    · by_cases hw : wavExt f.filename = true
      · rcases sv with _ | e
        · rcases hb : innerBody f ⟨c, none, lr, dn, en, v2⟩ stIn with ⟨r, st2⟩
          have hb1 : innerBody f ⟨c, none, lr, dn, en, v1⟩ stIn = (r, st2) := hb
          simp only [denoise_audio, denoise_audio_exc, hf, hw, if_true, if_false,
            hb, hb1]
          rcases r with e | r <;> rfl
        · simp [denoise_audio, denoise_audio_exc, hf, hw]
      · simp [denoise_audio, denoise_audio_exc, hf, hw]

/-- After a call in which the upload write and the encode step did not raise
and the input file did not vanish, neither temporary file is on disk. -/
theorem final_state_clean (req : Request) (env : Env)
    (hs : env.saveExc = none) (he : env.encodeExc = none)
    (hv : env.inputVanishes = false) :
    (denoise_audio req env).2.inputOnDisk = false
    ∧ (denoise_audio req env).2.outputOnDisk = false := by
  rcases req with ⟨_ | f⟩
  · simp [denoise_audio, denoise_audio_exc, St.init]
  · by_cases hf : f.filename = ""
    · simp [denoise_audio, denoise_audio_exc, hf, St.init]
    · by_cases hw : wavExt f.filename = true
      · rcases hb : innerBody f env stIn with ⟨r, st2⟩
        have hin : st2.inputOnDisk = true := by
          have h := innerBody_inputOnDisk f env stIn
          rw [hb] at h
          simpa [stIn, St.init] using h
        have hout : st2.outputOnDisk = st2.outputPathRecorded := by
          have h := innerBody_output f env stIn he (by simp [stIn, St.init])
          rw [hb] at h
          exact h
        have hcl := cleanup_clean env st2 hv hin hout
        simp only [denoise_audio, denoise_audio_exc, hf, hw, hs, hb, if_true,
          if_false]
        rcases r with e | r <;> simpa using hcl
      · simp [denoise_audio, denoise_audio_exc, hf, hw, St.init]

/-- Cleanup never changes which files were created. -/
theorem cleanup_inputCreated (env : Env) (st : St) :
    (cleanup env st).inputCreated = st.inputCreated := by
  unfold cleanup
  by_cases hv : env.inputVanishes = true <;>
    by_cases hin : st.inputOnDisk = true <;>
      by_cases hr : st.outputPathRecorded = true <;> simp [hv, hin, hr]

/-- Cleanup never changes whether the output file was created. -/
theorem cleanup_outputCreated (env : Env) (st : St) :
    (cleanup env st).outputCreated = st.outputCreated := by
  unfold cleanup
  by_cases hv : env.inputVanishes = true <;>
    by_cases hin : st.inputOnDisk = true <;>
      by_cases hr : st.outputPathRecorded = true <;> simp [hv, hin, hr]

/-- Cleanup never changes the record of the external denoise call. -/
theorem cleanup_denoiseCalledWith (env : Env) (st : St) :
    (cleanup env st).denoiseCalledWith = st.denoiseCalledWith := by
  unfold cleanup
  by_cases hv : env.inputVanishes = true <;>
    by_cases hin : st.inputOnDisk = true <;>
      by_cases hr : st.outputPathRecorded = true <;> simp [hv, hin, hr]

/-- Cleanup never changes the record of the encode call. -/
theorem cleanup_encodeCalledWith (env : Env) (st : St) :
    (cleanup env st).encodeCalledWith = st.encodeCalledWith := by
  unfold cleanup
  by_cases hv : env.inputVanishes = true <;>
    by_cases hin : st.inputOnDisk = true <;>
      by_cases hr : st.outputPathRecorded = true <;> simp [hv, hin, hr]

/-- On the pipeline path (file present, non-empty WAV name, upload write did
not raise) the final state is the inner-body state after cleanup. -/
theorem denoise_audio_pipeline (req : Request) (f : FileStorage) (env : Env)
    (hreq : req.file = some f) (hne : f.filename ≠ "")
    (hext : wavExt f.filename = true) (hsave : env.saveExc = none) :
    (denoise_audio req env).2 = cleanup env (innerBody f env stIn).2 := by
  rcases hb : innerBody f env stIn with ⟨r, st2⟩
  rcases r with e | r <;>
    simp [denoise_audio, denoise_audio_exc, hreq, hne, hext, hsave, hb]

/-- The inner body records exactly the denoise call `_fn` made. -/
theorem innerBody_call (f : FileStorage) (env : Env) (st : St) :
    (innerBody f env st).2.denoiseCalledWith
      = (_fn env (some "temp_input_path")).2 := by
  unfold innerBody
  rcases h : _fn env (some "temp_input_path") with ⟨res, call⟩
  rcases res with e | ⟨w, sr⟩
  · rfl
  · rcases w with _ | w
    · rfl
    · rcases he : env.encodeExc with _ | e <;> simp [he]

/-- When decoding yields a non-empty channel list, `_fn` calls the external
denoise function on the first channel, the decoded sample rate, and the
startup device, whatever the remaining channels are. -/
theorem _fn_call (env : Env) (p : String) (ch : Chan) (rest : List Chan)
    (sr : Nat) (hload : env.loadResult = .ok (ch :: rest, sr)) :
    (_fn env (some p)).2 = some (ch, sr, device env.cudaAvailable) := by
  unfold _fn
  rw [hload]
  rcases hd : env.denoiseFn ch sr (device env.cudaAvailable) with e | ⟨w, nsr⟩ <;>
    simp [hd]

/-! ## Claims -/

/-- C1 counterexample: on the exit path where `torchaudio.save` (encode)
raises, the output temporary file has already been created by
`NamedTemporaryFile(delete=False)` but `temp_output_path` was never assigned,
so cleanup skips it and it remains on disk after the handler returns 500. -/
theorem C1_cleanup_counterexample :
    (denoise_audio wavReq envEncBoom).2.outputCreated = true
    ∧ (denoise_audio wavReq envEncBoom).2.outputOnDisk = true
    ∧ (denoise_audio wavReq envEncBoom).1.status = 500 :=
  ⟨rfl, rfl, rfl⟩

/-- C1 (amended): provided the upload write and the encode step do not raise
and deleting the input temporary file does not fail, no temporary file created
during the call remains on disk after the handler returns; and errors raised
while deleting temporary files are suppressed and never surfaced: the
response is unchanged when the input unlink raises. -/
theorem C1_cleanup_amended (req : Request) (env : Env)
    (hs : env.saveExc = none) (he : env.encodeExc = none)
    (hv : env.inputVanishes = false) :
    ((denoise_audio req env).2.inputOnDisk = false
      ∧ (denoise_audio req env).2.outputOnDisk = false)
    ∧ (denoise_audio req { env with inputVanishes := true }).1
        = (denoise_audio req env).1 := by
  refine ⟨final_state_clean req env hs he hv, ?_⟩
  rcases env with ⟨c, sv, lr, dn, en, v⟩
  exact resp_indep req c sv lr dn en true v

/-- Witness for the amended C1 at a concrete successful call. -/
theorem C1_cleanup_amended_witness :
    (((denoise_audio wavReq envOK).2.inputOnDisk = false
      ∧ (denoise_audio wavReq envOK).2.outputOnDisk = false)
     ∧ (denoise_audio wavReq { envOK with inputVanishes := true }).1
         = (denoise_audio wavReq envOK).1) :=
  C1_cleanup_amended wavReq envOK rfl rfl rfl

/-- C2 counterexample: the empty filename does not end in `.wav`/`.wave`, yet
the handler answers `No file selected`, not `Only WAV files are supported`. -/
theorem C2_extension_counterexample :
    wavExt "" = false
    ∧ (denoise_audio ⟨some ⟨""⟩⟩ envOK).1.status = 400
    ∧ errMsg (denoise_audio ⟨some ⟨""⟩⟩ envOK).1 = some "No file selected"
    ∧ errMsg (denoise_audio ⟨some ⟨""⟩⟩ envOK).1
        ≠ some "Only WAV files are supported" := by
  refine ⟨rfl, rfl, rfl, ?_⟩
  decide

/-- C2 (amended): for every uploaded file whose filename is non-empty and does
not end, case-insensitively, in `.wav` or `.wave`, the handler returns 400
with body `{"error": "Only WAV files are supported"}`, creates no temporary
file and never calls the external denoise function. -/
theorem C2_extension_amended (req : Request) (f : FileStorage) (env : Env)
    (hreq : req.file = some f) (hne : f.filename ≠ "")
    (hext : wavExt f.filename = false) :
    denoise_audio req env = (errResp 400 "Only WAV files are supported", St.init)
    ∧ (denoise_audio req env).2.inputCreated = false
    ∧ (denoise_audio req env).2.outputCreated = false
    ∧ (denoise_audio req env).2.denoiseCalledWith = none := by
  refine ⟨?_, ?_, ?_, ?_⟩ <;>
    simp [denoise_audio, denoise_audio_exc, hreq, hne, hext, St.init]

/-- Witness for the amended C2: upload `notes.txt`. -/
theorem C2_extension_amended_witness :
    denoise_audio ⟨some ⟨"notes.txt"⟩⟩ envOK
      = (errResp 400 "Only WAV files are supported", St.init)
    ∧ (denoise_audio ⟨some ⟨"notes.txt"⟩⟩ envOK).2.inputCreated = false
    ∧ (denoise_audio ⟨some ⟨"notes.txt"⟩⟩ envOK).2.outputCreated = false
    ∧ (denoise_audio ⟨some ⟨"notes.txt"⟩⟩ envOK).2.denoiseCalledWith = none :=
  C2_extension_amended ⟨some ⟨"notes.txt"⟩⟩ ⟨"notes.txt"⟩ envOK rfl
    (by decide) (by decide)

/-- C3: a POST without a `file` field gets 400 `{"error": "No file provided"}`;
a `file` field with an empty filename gets 400 with an `error` key; in both
cases the state is untouched (no temporary file created). -/
theorem C3_missing_file (req : Request) (env : Env)
    (h : req.file = none ∨ ∃ f, req.file = some f ∧ f.filename = "") :
    (denoise_audio req env).1.status = 400
    ∧ (∃ m, errMsg (denoise_audio req env).1 = some m)
    ∧ (req.file = none →
        (denoise_audio req env).1 = errResp 400 "No file provided")
    ∧ (denoise_audio req env).2 = St.init := by
  rcases h with h | ⟨f, hf, hemp⟩
  · simp [denoise_audio, denoise_audio_exc, h, errResp, errMsg, jsonField,
      St.init]
  · simp [denoise_audio, denoise_audio_exc, hf, hemp, errResp, errMsg,
      jsonField, St.init]

/-- Witness for C3 at the request with no `file` field. -/
theorem C3_missing_file_witness :
    (denoise_audio ⟨none⟩ envOK).1.status = 400
    ∧ (∃ m, errMsg (denoise_audio ⟨none⟩ envOK).1 = some m)
    ∧ ((⟨none⟩ : Request).file = none →
        (denoise_audio ⟨none⟩ envOK).1 = errResp 400 "No file provided")
    ∧ (denoise_audio ⟨none⟩ envOK).2 = St.init :=
  C3_missing_file ⟨none⟩ envOK (Or.inl rfl)

/-- C4: for a valid WAV upload, when the external denoise function returns a
null signal the handler answers 500 with an `error` key and no attachment, and
the input temporary file, which was created, is deleted. -/
theorem C4_null_result (req : Request) (f : FileStorage) (env : Env)
    (ch : Chan) (rest : List Chan) (sr nsr : Nat)
    (hreq : req.file = some f) (hne : f.filename ≠ "")
    (hext : wavExt f.filename = true) (hsave : env.saveExc = none)
    (hload : env.loadResult = .ok (ch :: rest, sr))
    (hden : env.denoiseFn ch sr (device env.cudaAvailable) = .ok (none, nsr))
    (hv : env.inputVanishes = false) :
    (denoise_audio req env).1.status = 500
    ∧ errMsg (denoise_audio req env).1 = some "Failed to process the audio file"
    ∧ isAttachment (denoise_audio req env).1 = false
    ∧ (denoise_audio req env).2.inputCreated = true
    ∧ (denoise_audio req env).2.inputOnDisk = false
    ∧ (denoise_audio req env).2.outputCreated = false := by
  have hresp : (denoise_audio req env).1
      = errResp 500 "Failed to process the audio file" := by
    simp [denoise_audio, denoise_audio_exc, innerBody, _fn, hreq, hne, hext,
      hsave, hload, hden]
  have hst := denoise_audio_pipeline req f env hreq hne hext hsave
  refine ⟨by rw [hresp]; rfl, by rw [hresp]; rfl, by rw [hresp]; rfl, ?_, ?_, ?_⟩ <;>
    rw [hst] <;>
      simp [innerBody, _fn, hload, hden, cleanup, hv, stIn, St.init]

/-- Witness for C4 with a denoise stub that returns a null signal. -/
theorem C4_null_result_witness :
    (denoise_audio wavReq envNull).1.status = 500
    ∧ errMsg (denoise_audio wavReq envNull).1
        = some "Failed to process the audio file"
    ∧ isAttachment (denoise_audio wavReq envNull).1 = false
    ∧ (denoise_audio wavReq envNull).2.inputCreated = true
    ∧ (denoise_audio wavReq envNull).2.inputOnDisk = false
    ∧ (denoise_audio wavReq envNull).2.outputCreated = false :=
  C4_null_result wavReq ⟨"sample.wav"⟩ envNull [1, 2] [] 16000 0 rfl
    (by decide) rfl rfl rfl rfl rfl

/-- C5: every exception that escapes the pipeline (upload write, decode,
channel indexing, inference, encode) is caught by the top-level handler and
turned into a 500 JSON response whose `error` text carries the exception text;
the handler always returns a plain response, never an unhandled fault. -/
theorem C5_catch_all (req : Request) (env : Env) (e : String) (st : St)
    (h : denoise_audio_exc req env = (.error e, st)) :
    denoise_audio req env = (errResp 500 ("Internal server error: " ++ e), st)
    ∧ errMsg (denoise_audio req env).1
        = some ("Internal server error: " ++ e)
    ∧ (denoise_audio req env).1.status = 500 := by
  have h1 : denoise_audio req env
      = (errResp 500 ("Internal server error: " ++ e), st) := by
    simp [denoise_audio, h]
  refine ⟨h1, by rw [h1]; rfl, by rw [h1]; rfl⟩

/-- Witness for C5: the upload write raises `boom`. -/
theorem C5_catch_all_witness :
    denoise_audio wavReq envSaveBoom
      = (errResp 500 ("Internal server error: " ++ "boom"), stIn)
    ∧ errMsg (denoise_audio wavReq envSaveBoom).1
        = some ("Internal server error: " ++ "boom")
    ∧ (denoise_audio wavReq envSaveBoom).1.status = 500 :=
  C5_catch_all wavReq envSaveBoom "boom" stIn rfl

/-- C6: every successful call answers with a file attachment named
`denoised_` followed by the sanitized original filename, MIME type
`audio/wav`, the encode ran on exactly the signal and sample rate the external
denoise function returned, and every character of the sanitized name is in
`[A-Za-z0-9_.-]` (in particular no path separator survives). -/
theorem C6_success_response (req : Request) (f : FileStorage) (env : Env)
    (ch : Chan) (rest : List Chan) (sr : Nat) (w : Chan) (nsr : Nat)
    (hreq : req.file = some f) (hne : f.filename ≠ "")
    (hext : wavExt f.filename = true) (hsave : env.saveExc = none)
    (hload : env.loadResult = .ok (ch :: rest, sr))
    (hden : env.denoiseFn ch sr (device env.cudaAvailable) = .ok (some w, nsr))
    (henc : env.encodeExc = none) :
    (denoise_audio req env).1
      = ⟨200, .fileAttachment ("denoised_" ++ secure_filename f.filename)
              "audio/wav"⟩
    ∧ (denoise_audio req env).2.encodeCalledWith = some (w, some nsr)
    ∧ ∀ c ∈ (secure_filename f.filename).data, _ascii_keep c = true := by
  refine ⟨?_, ?_, secure_filename_safe f.filename⟩
  · simp [denoise_audio, denoise_audio_exc, innerBody, _fn, hreq, hne, hext,
      hsave, hload, hden, henc]
  · rw [denoise_audio_pipeline req f env hreq hne hext hsave,
      cleanup_encodeCalledWith]
    simp [innerBody, _fn, hload, hden, henc]

/-- Witness for C6: the spec scenario, `sample.wav` with an identity stub. -/
theorem C6_success_response_witness :
    (denoise_audio wavReq envOK).1
      = ⟨200, .fileAttachment ("denoised_" ++ secure_filename "sample.wav")
              "audio/wav"⟩
    ∧ (denoise_audio wavReq envOK).2.encodeCalledWith
        = some ([1, 2], some 16000)
    ∧ ∀ c ∈ (secure_filename "sample.wav").data, _ascii_keep c = true :=
  C6_success_response wavReq ⟨"sample.wav"⟩ envOK [1, 2] [] 16000 [1, 2] 16000
    rfl (by decide) rfl rfl rfl rfl rfl

/-- C7 counterexample: a call with no `file` field creates no temporary file
at all, refuting that every call creates exactly two. -/
theorem C7_two_files_counterexample :
    (denoise_audio ⟨none⟩ envOK).2.inputCreated = false
    ∧ (denoise_audio ⟨none⟩ envOK).2.outputCreated = false :=
  ⟨rfl, rfl⟩

/-- C7 (amended): every call creates at most two temporary files (an output
file is only ever created after the input file), a successful call creates
exactly two, and provided the upload write and encode do not raise and the
input unlink does not fail, every temporary file created during the call is
deleted. -/
theorem C7_two_files_amended (req : Request) (env : Env) :
    ((denoise_audio req env).2.outputCreated = true →
      (denoise_audio req env).2.inputCreated = true)
    ∧ ((denoise_audio req env).1.status = 200 →
      (denoise_audio req env).2.inputCreated = true
      ∧ (denoise_audio req env).2.outputCreated = true)
    ∧ (env.saveExc = none → env.encodeExc = none →
      env.inputVanishes = false →
      (denoise_audio req env).2.inputOnDisk = false
      ∧ (denoise_audio req env).2.outputOnDisk = false) := by
  have hmain : ((denoise_audio req env).2.outputCreated = true →
      (denoise_audio req env).2.inputCreated = true)
    ∧ ((denoise_audio req env).1.status = 200 →
      (denoise_audio req env).2.inputCreated = true
      ∧ (denoise_audio req env).2.outputCreated = true) := by
    rcases req with ⟨_ | f⟩
    · simp [denoise_audio, denoise_audio_exc, St.init, errResp]
    · by_cases hf : f.filename = ""
      · simp [denoise_audio, denoise_audio_exc, hf, St.init, errResp]
      · by_cases hw : wavExt f.filename = true
        · rcases hsv : env.saveExc with _ | e
          · rcases hl : env.loadResult with e | ⟨dwav, sr⟩
            · simp [denoise_audio, denoise_audio_exc, innerBody, _fn, stIn,
                St.init, hf, hw, hsv, hl, errResp, cleanup_inputCreated,
                cleanup_outputCreated]
            · rcases dwav with _ | ⟨c0, chrest⟩
              · simp [denoise_audio, denoise_audio_exc, innerBody, _fn, stIn,
                  St.init, hf, hw, hsv, hl, errResp, cleanup_inputCreated,
                  cleanup_outputCreated]
              · rcases hd : env.denoiseFn c0 sr (device env.cudaAvailable) with
                  e | ⟨w, nsr⟩
                · simp [denoise_audio, denoise_audio_exc, innerBody, _fn,
                    stIn, St.init, hf, hw, hsv, hl, hd, errResp,
                    cleanup_inputCreated, cleanup_outputCreated]
                · rcases w with _ | w
                  · simp [denoise_audio, denoise_audio_exc, innerBody, _fn,
                      stIn, St.init, hf, hw, hsv, hl, hd, errResp,
                      cleanup_inputCreated, cleanup_outputCreated]
                  · rcases henc : env.encodeExc with _ | e
                    · simp [denoise_audio, denoise_audio_exc, innerBody, _fn,
                        stIn, St.init, hf, hw, hsv, hl, hd, henc, errResp,
                        cleanup_inputCreated, cleanup_outputCreated]
                    · simp [denoise_audio, denoise_audio_exc, innerBody, _fn,
                        stIn, St.init, hf, hw, hsv, hl, hd, henc, errResp,
                        cleanup_inputCreated, cleanup_outputCreated]
          · simp [denoise_audio, denoise_audio_exc, hf, hw, hsv, stIn,
              St.init, errResp]
        · simp [denoise_audio, denoise_audio_exc, hf, hw, St.init, errResp]
  exact ⟨hmain.1, hmain.2, fun hs he hv => final_state_clean req env hs he hv⟩

/-- Witness for the amended C7: at a concrete successful call the status-200
and deletion hypotheses are discharged and both conclusions obtained. -/
theorem C7_two_files_amended_witness :
    ((denoise_audio wavReq envOK).2.inputCreated = true
      ∧ (denoise_audio wavReq envOK).2.outputCreated = true)
    ∧ ((denoise_audio wavReq envOK).2.inputOnDisk = false
      ∧ (denoise_audio wavReq envOK).2.outputOnDisk = false) :=
  ⟨(C7_two_files_amended wavReq envOK).2.1 rfl,
   (C7_two_files_amended wavReq envOK).2.2 rfl rfl rfl⟩

/-- C8: `/health` and `/` always return their fixed 200 JSON payloads, both
report exactly the startup-computed device value, and the two handlers agree
on it; the embedding takes the device as the pure startup configuration, never
mutated by any handler. -/
theorem C8_health_root (cudaAvailable : Bool) :
    health_check cudaAvailable
      = ⟨200, .json (.obj [("status", .str "healthy"),
                           ("device", .str (device cudaAvailable))])⟩
    ∧ root cudaAvailable
      = ⟨200, .json (.obj
          [("message", .str "Audio Denoiser API"),
           ("endpoints", .obj
             [("/health", .str "GET - Health check"),
              ("/denoise", .str "POST - Upload WAV file to denoise"),
              ("/", .str "GET - This information")]),
           ("device", .str (device cudaAvailable))])⟩
    ∧ deviceField (health_check cudaAvailable) = some (device cudaAvailable)
    ∧ deviceField (root cudaAvailable) = some (device cudaAvailable)
    ∧ deviceField (health_check cudaAvailable)
        = deviceField (root cudaAvailable)
    ∧ (health_check cudaAvailable).status = 200
    ∧ (root cudaAvailable).status = 200 :=
  ⟨rfl, rfl, rfl, rfl, rfl, rfl, rfl⟩

/-- C9: whatever the decoded channel list is, only its first channel is passed
to the external denoise function, and the handler result is identical for any
two inputs that agree on the first channel and sample rate: the remaining
channels are discarded, with no averaging or downmixing. -/
theorem C9_first_channel (req : Request) (f : FileStorage) (env : Env)
    (ch : Chan) (rest rest2 : List Chan) (sr : Nat)
    (hreq : req.file = some f) (hne : f.filename ≠ "")
    (hext : wavExt f.filename = true) (hsave : env.saveExc = none)
    (hload : env.loadResult = .ok (ch :: rest, sr)) :
    (denoise_audio req env).2.denoiseCalledWith
      = some (ch, sr, device env.cudaAvailable)
    ∧ denoise_audio req { env with loadResult := .ok (ch :: rest, sr) }
      = denoise_audio req { env with loadResult := .ok (ch :: rest2, sr) } := by
  constructor
  · rw [denoise_audio_pipeline req f env hreq hne hext hsave,
      cleanup_denoiseCalledWith, innerBody_call,
      _fn_call env "temp_input_path" ch rest sr hload]
  · rcases req with ⟨rf⟩
    have h : rf = some f := hreq
    subst h
    rfl

/-- Witness for C9: a stereo decode where the second channel differs. -/
theorem C9_first_channel_witness :
    (denoise_audio wavReq envOK).2.denoiseCalledWith
      = some ([1, 2], 16000, device envOK.cudaAvailable)
    ∧ denoise_audio wavReq { envOK with loadResult := .ok ([[1, 2]], 16000) }
      = denoise_audio wavReq
          { envOK with loadResult := .ok ([[1, 2], [3]], 16000) } :=
  C9_first_channel wavReq ⟨"sample.wav"⟩ envOK [1, 2] [] [[3]] 16000 rfl
    (by decide) rfl rfl rfl

/-- C10: when deleting the input temporary file raises `OSError` (the file is
already gone), the single cleanup guard aborts before the output unlink, so
the output temporary file stays on disk while the call still succeeds. -/
theorem C10_cleanup_skip (req : Request) (f : FileStorage) (env : Env)
    (ch : Chan) (rest : List Chan) (sr : Nat) (w : Chan) (nsr : Nat)
    (hreq : req.file = some f) (hne : f.filename ≠ "")
    (hext : wavExt f.filename = true) (hsave : env.saveExc = none)
    (hload : env.loadResult = .ok (ch :: rest, sr))
    (hden : env.denoiseFn ch sr (device env.cudaAvailable) = .ok (some w, nsr))
    (henc : env.encodeExc = none)
    (hv : env.inputVanishes = true) :
    (denoise_audio req env).2.outputCreated = true
    ∧ (denoise_audio req env).2.outputOnDisk = true
    ∧ (denoise_audio req env).2.inputOnDisk = false
    ∧ (denoise_audio req env).1.status = 200 := by
  have hst := denoise_audio_pipeline req f env hreq hne hext hsave
  refine ⟨?_, ?_, ?_, ?_⟩
  · rw [hst]
    simp [innerBody, _fn, cleanup, hload, hden, henc, hv, stIn, St.init]
  · rw [hst]
    simp [innerBody, _fn, cleanup, hload, hden, henc, hv, stIn, St.init]
  · rw [hst]
    simp [innerBody, _fn, cleanup, hload, hden, henc, hv, stIn, St.init]
  · simp [denoise_audio, denoise_audio_exc, innerBody, _fn, hreq, hne, hext,
      hsave, hload, hden, henc]

/-- Witness for C10: a successful call whose input file vanished. -/
theorem C10_cleanup_skip_witness :
    (denoise_audio wavReq envVanish).2.outputCreated = true
    ∧ (denoise_audio wavReq envVanish).2.outputOnDisk = true
    ∧ (denoise_audio wavReq envVanish).2.inputOnDisk = false
    ∧ (denoise_audio wavReq envVanish).1.status = 200 :=
  C10_cleanup_skip wavReq ⟨"sample.wav"⟩ envVanish [1, 2] [] 16000 [1, 2]
    16000 rfl (by decide) rfl rfl rfl rfl rfl rfl
